import Mathlib

/-!
Shallow embedding of the catch-seat alert evaluation and notification
engine: the subscription models (`models.py`), the Megabox matcher
(`crawlers/megabox.py`) and the per-cycle check driver (`run_checks.py`).

Conventions of the embedding:
* Python strings are Lean `String`s; Python's substring test `needle in hay`
  is `pyIn needle hay`.
* Timestamps are integers (seconds); `datetime` differences become integer
  subtraction, so `delta.total_seconds() >= cooldown_min * 60` becomes
  `now - t ≥ cooldown_min * 60`.
* Optional columns / `getattr(..., None)` become `Option`.
* The SMTP dispatch outcome is an oracle boolean passed into each step.
-/

/-- Python's substring containment `needle in hay` on character lists. -/
def containsSub (needle : List Char) : List Char → Bool
  | [] => needle.isEmpty
  | c :: t => needle.isPrefixOf (c :: t) || containsSub needle t

/-- Python's `needle in hay` for strings. -/
def pyIn (needle hay : String) : Bool :=
  containsSub needle.data hay.data

/-- Parse a list of decimal digit characters as a number, like Python's
`int("".join(digits))`. -/
def digitsToNat (digits : List Char) : Nat :=
  digits.foldl (fun acc c => acc * 10 + (c.toNat - 48)) 0

/-- Python's `str.strip()`: drop leading and trailing whitespace. -/
def pyStrip (s : String) : String :=
  String.mk (((s.data.dropWhile Char.isWhitespace).reverse.dropWhile
    Char.isWhitespace).reverse)

/-- One parsed showtime row as produced by `megabox.get_showtimes`:
keys `movie_title`, `screen_name`, `start_time`, `seats_status`, `bookable`. -/
structure Showtime where
  movie_title : String
  screen_name : String
  start_time : Option String
  seats_status : String
  bookable : Bool
deriving DecidableEq, Repr

/-- The `MovieOpenAlert` model (`models.py`), restricted to the columns the
engine reads or writes. -/
structure MovieOpenAlert where
  movie : String
  theater : String
  screen : Option String
  date : Option String
  is_sent : Bool
  last_checked : Option Int
  active : Bool
  sent_at : Option Int
  send_count : Nat
  cooldown_min : Int
deriving DecidableEq, Repr

/-- `MovieOpenAlert.can_send_now` (`models.py`): no send when inactive or
already sent; otherwise ok if never sent before or the cooldown elapsed. -/
def MovieOpenAlert.can_send_now (a : MovieOpenAlert) (now : Int) : Bool :=
  if !a.active then false
  else if a.is_sent then false
  else
    match a.sent_at with
    | none => true
    | some t => now - t ≥ a.cooldown_min * 60

/-- The `SeatCancelAlert` model (`models.py`), restricted to the columns the
engine reads or writes. -/
structure SeatCancelAlert where
  movie : String
  theater : String
  screen : Option String
  show_datetime : Option String
  desired_count : Option Int
  baseline_available_seats : Option Int
  last_available_seats : Option Int
  is_sent : Bool
  last_checked : Option Int
  active : Bool
  sent_at : Option Int
  send_count : Nat
  cooldown_min : Int
deriving DecidableEq, Repr

/-- `SeatCancelAlert.can_send_now` (`models.py`): same rule as the open
alert's gate. -/
def SeatCancelAlert.can_send_now (a : SeatCancelAlert) (now : Int) : Bool :=
  if !a.active then false
  else if a.is_sent then false
  else
    match a.sent_at with
    | none => true
    | some t => now - t ≥ a.cooldown_min * 60

/-- `megabox._normalize_text`: drop all whitespace, lowercase. -/
def normalizeText (s : Option String) : String :=
  match s with
  | none => ""
  | some s => String.mk ((s.data.filter fun c => !c.isWhitespace).map Char.toLower)

/-- `megabox.is_open_now`: a bookable DOLBY showtime whose (normalized) title
contains the alert's keyword and, when a screen preference is set, whose
(normalized) screen name contains that preference. -/
def is_open_now (alert : MovieOpenAlert) (showtimes : List Showtime) : Bool :=
  if showtimes.isEmpty then false
  else
    let keyword_norm := normalizeText (some alert.movie)
    let screen_norm := normalizeText alert.screen
    if keyword_norm == "" then false
    else
      showtimes.any fun st =>
        st.bookable
          && pyIn keyword_norm (normalizeText (some st.movie_title))
          && (screen_norm == "" || pyIn screen_norm (normalizeText (some st.screen_name)))

/-- `run_checks._normalize_screen_name`: drop all whitespace (no case fold). -/
def normalizeScreenName (name : Option String) : String :=
  match name with
  | none => ""
  | some s => String.mk (s.data.filter fun c => !c.isWhitespace)

/-- `run_checks._get_time_hm_from_show_datetime` (string branch): collect the
digits, take the last four as `HHMM`; `none` when fewer than four digits. -/
def getTimeHmFromShowDatetime (show_dt : Option String) : Option String :=
  match show_dt with
  | none => none
  | some s =>
    if pyStrip s == "" then none
    else
      let digits := s.data.filter Char.isDigit
      if digits.length ≥ 4 then some (String.mk (digits.drop (digits.length - 4)))
      else none

/-- `run_checks._extract_time_hm_from_showtime` on a crawler record: the
`start_time` key, digits collected, last four kept. -/
def extractTimeHmFromShowtime (st : Showtime) : Option String :=
  match st.start_time with
  | none => none
  | some s =>
    if pyStrip s == "" then none
    else
      let digits := s.data.filter Char.isDigit
      if digits.length ≥ 4 then some (String.mk (digits.drop (digits.length - 4)))
      else none

/-- `run_checks._match_showtime_for_seat_alert`: first record passing the
three filters (raw keyword containment in the title; whitespace-stripped
screen equality when both sides are non-empty; `HHMM` equality when both
sides parse). -/
def matchShowtimeForSeatAlert (alert : SeatCancelAlert) (showtimes : List Showtime) :
    Option Showtime :=
  let keyword := pyStrip alert.movie
  let target_screen := normalizeScreenName alert.screen
  let target_time_hm := getTimeHmFromShowDatetime alert.show_datetime
  showtimes.find? fun st =>
    (keyword == "" || pyIn keyword st.movie_title)
      && (let norm_st_screen := normalizeScreenName (some st.screen_name)
          target_screen == "" || norm_st_screen == "" || target_screen == norm_st_screen)
      && (match target_time_hm, extractTimeHmFromShowtime st with
          | some a, some b => a == b
          | _, _ => true)

/-- `run_checks._get_available_seats_from_show`: concatenate every digit of
`seats_status` and parse; `none` when the status is blank or digit-free (the
fallback numeric keys never occur on crawler records). -/
def getAvailableSeatsFromShow (st : Showtime) : Option Nat :=
  if pyStrip st.seats_status == "" then none
  else
    let digits := st.seats_status.data.filter Char.isDigit
    if digits.isEmpty then none
    else some (digitsToNat digits)

/-- The sold-out marker string (`"매진"`). -/
def soldOutMarker : String := "매진"

/-- The combined availability extraction of `run_seat_cancel_checks`
(lines 655-666): the digit scan first; only when it yields nothing is a
sold-out marker in the status interpreted as 0 seats. -/
def seatCurrentAvailable (st : Showtime) : Option Nat :=
  match getAvailableSeatsFromShow st with
  | some n => some n
  | none =>
    if pyIn soldOutMarker (pyStrip st.seats_status) then some 0 else none

/-- Result of processing one alert in one cycle: the updated alert, whether
the mail dispatch was invoked, and whether it was invoked and succeeded. -/
structure StepResult (α : Type) where
  alert : α
  dispatched : Bool
  dispatchOk : Bool
deriving DecidableEq, Repr

/-- The per-alert body of the group loop in `run_movie_open_checks`
(lines 278-314): gate check, `is_open_now`, then the mail attempt; on a
confirmed send the `is_sent`/`sent_at`/`send_count` fields advance, on a
failed send only `last_checked` does. `mailOk` is the outcome
`send_open_alert_email` would report. -/
def openStep (now : Int) (showtimes : List Showtime) (mailOk : Bool)
    (a : MovieOpenAlert) : StepResult MovieOpenAlert :=
  if !a.can_send_now now then ⟨a, false, false⟩
  else if !is_open_now a showtimes then ⟨a, false, false⟩
  else if mailOk then
    let a2 := { a with is_sent := true, sent_at := some now, send_count := a.send_count + 1, last_checked := some now }
    ⟨a2, true, true⟩
  else ⟨{ a with last_checked := some now }, true, false⟩

/-- The per-alert body of the group loop in `run_seat_cancel_checks`
(lines 634-698): gate, baseline and desired-count validation, record
matching, availability extraction (with the sold-out fallback), then the
display fields and, on a fire, the mail attempt. -/
def seatStep (now : Int) (showtimes : List Showtime) (mailOk : Bool)
    (a : SeatCancelAlert) : StepResult SeatCancelAlert :=
  if !a.can_send_now now then ⟨a, false, false⟩
  else
    match a.baseline_available_seats with
    | none => ⟨a, false, false⟩
    | some baseline =>
      match a.desired_count with
      | none => ⟨a, false, false⟩
      | some desired =>
        if desired ≤ 0 then ⟨a, false, false⟩
        else
          match matchShowtimeForSeatAlert a showtimes with
          | none => ⟨a, false, false⟩
          | some matched =>
            match seatCurrentAvailable matched with
            | none => ⟨a, false, false⟩
            | some current =>
              let a1 := { a with last_available_seats := some (current : Int), last_checked := some now }
              if (current : Int) - baseline ≥ desired then
                if mailOk then
                  let a2 := { a1 with is_sent := true, sent_at := some now, send_count := a1.send_count + 1 }
                  ⟨a2, true, true⟩
                else ⟨a1, true, false⟩
              else ⟨a1, false, false⟩

/-- The data one cycle supplies to an alert it processes: the cycle's
`utcnow`, the showtimes fetched for the alert's group, and the outcome the
mail transport would report if invoked. -/
structure CycleEnv where
  now : Int
  showtimes : List Showtime
  mailOk : Bool

/-- Evolution of one open alert over successive cycles; returns the final
alert, the number of dispatcher invocations, and the number of successful
dispatches. -/
def openTrace : List CycleEnv → MovieOpenAlert → MovieOpenAlert × Nat × Nat
  | [], a => (a, 0, 0)
  | e :: rest, a =>
    let r := openStep e.now e.showtimes e.mailOk a
    let t := openTrace rest r.alert
    (t.1, (if r.dispatched then 1 else 0) + t.2.1, (if r.dispatchOk then 1 else 0) + t.2.2)

/-- Evolution of one seat alert over successive cycles; returns the final
alert, the number of dispatcher invocations, and the number of successful
dispatches. -/
def seatTrace : List CycleEnv → SeatCancelAlert → SeatCancelAlert × Nat × Nat
  | [], a => (a, 0, 0)
  | e :: rest, a =>
    let r := seatStep e.now e.showtimes e.mailOk a
    let t := seatTrace rest r.alert
    (t.1, (if r.dispatched then 1 else 0) + t.2.1, (if r.dispatchOk then 1 else 0) + t.2.2)

/-- `run_checks._get_alert_date_str`: the alert's stored date (dashes
removed) when present and non-blank, else the run's current date. -/
def getAlertDateStr (a : MovieOpenAlert) (today_yyyymmdd : String) : String :=
  match a.date with
  | none => today_yyyymmdd
  | some d => if pyStrip d == "" then today_yyyymmdd
              else String.mk ((pyStrip d).data.filter fun c => c ≠ '-')

/-- `run_checks._get_date_from_show_datetime` (string branch): the first
eight digits of `show_datetime` when at least eight are present, else the
fallback date. -/
def getDateFromShowDatetime (show_dt : Option String) (fallback : String) : String :=
  match show_dt with
  | none => fallback
  | some s =>
    if pyStrip s == "" then fallback
    else
      let digits := s.data.filter Char.isDigit
      if digits.length ≥ 8 then String.mk (digits.take 8) else fallback

/-- The grouping key `(branch_code, date)` an open alert contributes in
`run_movie_open_checks` (lines 248-256); `none` when the alert is skipped
for lacking a branch code. -/
def openAlertKey (today : String) (a : MovieOpenAlert) : Option (String × String) :=
  if pyStrip a.theater == "" then none
  else some (pyStrip a.theater, getAlertDateStr a today)

/-- The grouping key `(branch_code, date)` a seat alert contributes in
`run_seat_cancel_checks` (lines 602-611). -/
def seatAlertKey (today : String) (a : SeatCancelAlert) : Option (String × String) :=
  if pyStrip a.theater == "" then none
  else some (pyStrip a.theater, getDateFromShowDatetime a.show_datetime today)

/-- `grouped.setdefault(key, []).append(alert)`: record a key, keeping the
first-insertion order of Python dict keys. -/
def insertKey (ks : List (String × String)) (k : String × String) :
    List (String × String) :=
  if k ∈ ks then ks else ks ++ [k]

/-- The distinct group keys in first-appearance order: one per
`grouped.items()` iteration, i.e. one per `get_showtimes` call. -/
def groupKeys (l : List (String × String)) : List (String × String) :=
  l.foldl insertKey []

/-- The `(branch, date)` pairs `run_movie_open_checks` fetches, one
`get_showtimes` call each, for a given loaded alert list. -/
def openFetchCalls (today : String) (alerts : List MovieOpenAlert) :
    List (String × String) :=
  groupKeys (alerts.filterMap (openAlertKey today))

/-- The `(branch, date)` pairs `run_seat_cancel_checks` fetches, one
`get_showtimes` call each, for a given loaded alert list. -/
def seatFetchCalls (today : String) (alerts : List SeatCancelAlert) :
    List (String × String) :=
  groupKeys (alerts.filterMap (seatAlertKey today))

/-! ## Claim C6: the gate function -/

/-- C6 counterexample: an active, not-yet-sent alert whose `sent_at` is set
and within the cooldown window is refused by `can_send_now`, so the gate is
not equivalent to `active ∧ ¬is_sent` alone. -/
theorem c6_counterexample :
    (MovieOpenAlert.mk "주토피아" "1351" none none false none true (some 0) 1 30).active = true
    ∧ (MovieOpenAlert.mk "주토피아" "1351" none none false none true (some 0) 1 30).is_sent = false
    ∧ (MovieOpenAlert.mk "주토피아" "1351" none none false none true (some 0) 1
        30).can_send_now 0 = false := by
  decide

/-- C6 amended: for both alert kinds, `can_send_now now` returns true iff
`active` is true, `is_sent` is false, and additionally either `sent_at` is
unset or at least `cooldown_min` minutes have elapsed since `sent_at`. -/
theorem c6_gate_characterization :
    ∀ (a : MovieOpenAlert) (b : SeatCancelAlert) (now : Int),
      (a.can_send_now now = true ↔
        a.active = true ∧ a.is_sent = false ∧
          (a.sent_at = none ∨ ∃ t, a.sent_at = some t ∧ a.cooldown_min * 60 ≤ now - t))
      ∧ (b.can_send_now now = true ↔
        b.active = true ∧ b.is_sent = false ∧
          (b.sent_at = none ∨ ∃ t, b.sent_at = some t ∧ b.cooldown_min * 60 ≤ now - t)) := by
  intro a b now
  constructor
  · cases ha : a.active <;> cases hs : a.is_sent <;> cases ht : a.sent_at <;>
      simp [MovieOpenAlert.can_send_now, ha, hs, ht, ge_iff_le]
  · cases ha : b.active <;> cases hs : b.is_sent <;> cases ht : b.sent_at <;>
      simp [SeatCancelAlert.can_send_now, ha, hs, ht, ge_iff_le]

/-! ## Claim C3: availability extraction and the sold-out marker -/

/-- C3 counterexample: a status containing both the sold-out marker and a
digit is parsed by the digit scan, not forced to 0 — the digit scan runs
before the sold-out check. -/
theorem c3_counterexample :
    pyIn soldOutMarker (Showtime.mk "A" "S" none "매진 3" true).seats_status = true
    ∧ seatCurrentAvailable (Showtime.mk "A" "S" none "매진 3" true) = some 3
    ∧ seatCurrentAvailable (Showtime.mk "A" "S" none "매진 3" true) ≠ some 0 := by
  decide

/-- C3 amended: the digit scan takes priority — whenever
`_get_available_seats_from_show` parses a count, that count is the result
even if a sold-out marker is present; the sold-out marker yields 0 only when
the status contains no digit at all. -/
theorem c3_digit_scan_priority :
    (∀ st : Showtime, st.seats_status.data.filter Char.isDigit = [] →
      pyIn soldOutMarker (pyStrip st.seats_status) = true →
      seatCurrentAvailable st = some 0)
    ∧ (∀ (st : Showtime) (n : Nat), getAvailableSeatsFromShow st = some n →
      seatCurrentAvailable st = some n) := by
  constructor
  · intro st hdig hmark
    have hnone : getAvailableSeatsFromShow st = none := by
      unfold getAvailableSeatsFromShow
      split
      · rfl
      · simp [hdig]
    simp [seatCurrentAvailable, hnone, hmark]
  · intro st n h
    simp [seatCurrentAvailable, h]

/-- C3 amended, witness: the plain sold-out status `"매진"` (no digits)
yields 0, and `"잔여 5석"` yields its digit value 5. -/
theorem c3_digit_scan_priority_witness :
    seatCurrentAvailable (Showtime.mk "A" "S" none "매진" true) = some 0
    ∧ seatCurrentAvailable (Showtime.mk "A" "S" none "잔여 5석" true) = some 5 := by
  exact ⟨c3_digit_scan_priority.1 _ (by decide) (by decide),
    c3_digit_scan_priority.2 _ 5 (by decide)⟩

/-! ## Claim C4: title matching in the two matchers -/

/-- C4 counterexample: keyword `"zootopia"` is a case-insensitive,
whitespace-insensitive substring of title `"Zootopia 2"`, yet the seat-type
matcher rejects the record — its title test is the raw, case-sensitive
Python `in`. -/
theorem c4_counterexample :
    pyIn (normalizeText (some "zootopia")) (normalizeText (some "Zootopia 2")) = true
    ∧ matchShowtimeForSeatAlert
        (SeatCancelAlert.mk "zootopia" "0019" none none (some 1) (some 0) none false none
          true none 0 30)
        [Showtime.mk "Zootopia 2" "X" none "잔여 5석" true] = none := by
  decide

/-- C4 amended: the open-type matcher matches titles by case-insensitive,
whitespace-insensitive substring containment of the keyword, but the
seat-type matcher uses raw (case- and whitespace-sensitive) substring
containment of the stripped keyword in the record title. -/
theorem c4_title_matching :
    (∀ (a : MovieOpenAlert) (st : Showtime), a.screen = none → st.bookable = true →
      (is_open_now a [st] = true ↔
        normalizeText (some a.movie) ≠ "" ∧
          pyIn (normalizeText (some a.movie)) (normalizeText (some st.movie_title)) = true))
    ∧ (∀ (a : SeatCancelAlert) (st : Showtime), a.screen = none → a.show_datetime = none →
      (matchShowtimeForSeatAlert a [st] = some st ↔
        (pyStrip a.movie = "" ∨ pyIn (pyStrip a.movie) st.movie_title = true))) := by
  constructor
  · intro a st hscreen hbook
    simp [is_open_now, hscreen, hbook, normalizeText]
  · intro a st hscreen hdt
    simp [matchShowtimeForSeatAlert, hscreen, hdt, normalizeScreenName,
      getTimeHmFromShowDatetime, List.find?]
    cases h : (pyStrip a.movie == "" || pyIn (pyStrip a.movie) st.movie_title) <;>
      simp_all

/-- C4 amended, witness: open-type matching accepts keyword `"zootopia"`
against title `"Zootopia 2"`, while the seat-type matcher accepts only the
exact-case keyword. -/
theorem c4_title_matching_witness :
    is_open_now (MovieOpenAlert.mk "zootopia" "1351" none none false none true none 0 30)
      [Showtime.mk "Zootopia 2" "X" none "잔여 5석" true] = true
    ∧ matchShowtimeForSeatAlert
        (SeatCancelAlert.mk "Zootopia" "0019" none none (some 1) (some 0) none false none
          true none 0 30)
        [Showtime.mk "Zootopia 2" "X" none "잔여 5석" true]
      = some (Showtime.mk "Zootopia 2" "X" none "잔여 5석" true) := by
  exact ⟨(c4_title_matching.1 _ _ rfl rfl).mpr (by decide),
    (c4_title_matching.2 _ _ rfl rfl).mpr (by decide)⟩

/-! ## Claim C5: screen and showtime matching for seat alerts -/

/-- C5 counterexample: the seat-type matcher accepts a record whose screen
name is empty and whose start time is absent, even though the subscription
specifies a screen preference (which is then not a substring of the record's
screen name) and a stored start time (which then equals nothing). -/
theorem c5_counterexample :
    matchShowtimeForSeatAlert
        (SeatCancelAlert.mk "A" "0019" (some "DOLBY") (some "2025-12-24 19:30") (some 1)
          (some 0) none false none true none 0 30)
        [Showtime.mk "A" "" none "잔여 5석" true]
      = some (Showtime.mk "A" "" none "잔여 5석" true)
    ∧ pyIn
        (normalizeScreenName (some "DOLBY"))
        (normalizeScreenName (some (Showtime.mk "A" "" none "잔여 5석" true).screen_name))
      = false
    ∧ extractTimeHmFromShowtime (Showtime.mk "A" "" none "잔여 5석" true) = none := by
  decide

/-- C5 amended: when the seat-type matcher accepts a record, the
whitespace-stripped screen preference is either unset, or the record's
stripped screen name is empty, or the two are exactly equal (equality, not
substring); and whenever both the stored and the record start time normalize
to `HHMM`, they are equal. Records with an empty screen name or an
unnormalizable start time pass those two filters vacuously. -/
theorem c5_screen_time_necessity :
    ∀ (a : SeatCancelAlert) (sts : List Showtime) (st : Showtime),
      matchShowtimeForSeatAlert a sts = some st →
      (normalizeScreenName a.screen = "" ∨ normalizeScreenName (some st.screen_name) = "" ∨
        normalizeScreenName a.screen = normalizeScreenName (some st.screen_name))
      ∧ (∀ ta tb, getTimeHmFromShowDatetime a.show_datetime = some ta →
          extractTimeHmFromShowtime st = some tb → ta = tb) := by
  intro a sts st h
  have hp := List.find?_some h
  simp only [Bool.and_eq_true, Bool.or_eq_true, beq_iff_eq] at hp
  refine ⟨?_, ?_⟩
  · tauto
  · intro ta tb hta htb
    rw [hta, htb] at hp
    simp only [beq_iff_eq] at hp
    tauto

/-- C5 amended, witness: a record with matching screen (after whitespace
stripping) and matching `HHMM` time is accepted, and the necessity
conditions hold for it. -/
theorem c5_screen_time_necessity_witness :
    (normalizeScreenName (some "DOLBY CINEMA") = "" ∨
      normalizeScreenName (some (Showtime.mk "A" "DOLBY CINEMA" (some "19:30") "잔여 5석"
        true).screen_name) = "" ∨
      normalizeScreenName (some "DOLBY CINEMA") =
        normalizeScreenName (some (Showtime.mk "A" "DOLBY CINEMA" (some "19:30") "잔여 5석"
          true).screen_name))
    ∧ (∀ ta tb,
        getTimeHmFromShowDatetime (SeatCancelAlert.mk "A" "0019" (some "DOLBY CINEMA")
          (some "2025-12-24 19:30") (some 1) (some 0) none false none true none 0
          30).show_datetime = some ta →
        extractTimeHmFromShowtime (Showtime.mk "A" "DOLBY CINEMA" (some "19:30") "잔여 5석"
          true) = some tb → ta = tb) := by
  exact c5_screen_time_necessity
    (SeatCancelAlert.mk "A" "0019" (some "DOLBY CINEMA") (some "2025-12-24 19:30") (some 1)
      (some 0) none false none true none 0 30)
    [Showtime.mk "A" "DOLBY CINEMA" (some "19:30") "잔여 5석" true]
    (Showtime.mk "A" "DOLBY CINEMA" (some "19:30") "잔여 5석" true) (by decide)

/-! ## Claim C9: unmatchable subscriptions -/

/-- C9 counterexample: an eligible seat alert (gate passes, baseline and
desired count valid) evaluated against an empty showtime list matches
nothing; the cycle skips it without error, but `last_checked` does not
advance — the whole record is unchanged. -/
theorem c9_counterexample :
    (SeatCancelAlert.mk "A" "0019" none none (some 1) (some 0) none false none true none 0
      30).can_send_now 100 = true
    ∧ matchShowtimeForSeatAlert
        (SeatCancelAlert.mk "A" "0019" none none (some 1) (some 0) none false none true
          none 0 30) [] = none
    ∧ (seatStep 100 [] true
        (SeatCancelAlert.mk "A" "0019" none none (some 1) (some 0) none false none true
          none 0 30)).alert.last_checked = none := by
  decide

/-- C9 amended: a subscription for which no record satisfies its criteria is
treated as "not yet true" without an error, but the cycle leaves the
subscription entirely unchanged — `last_checked` included — and invokes no
dispatch; `last_checked` advances only when evaluation proceeds further
(open-type: on a fire; seat-type: once a record matched and its availability
parsed). -/
theorem c9_no_match_leaves_alert_unchanged :
    (∀ (now : Int) (sts : List Showtime) (ok : Bool) (a : MovieOpenAlert),
      is_open_now a sts = false → openStep now sts ok a = ⟨a, false, false⟩)
    ∧ (∀ (now : Int) (sts : List Showtime) (ok : Bool) (a : SeatCancelAlert),
      matchShowtimeForSeatAlert a sts = none → seatStep now sts ok a = ⟨a, false, false⟩) := by
  constructor
  · intro now sts ok a h
    unfold openStep
    split
    · rfl
    · simp [h]
  · intro now sts ok a h
    unfold seatStep
    split
    · rfl
    · split
      · rfl
      · split
        · rfl
        · split
          · rfl
          · simp [h]

/-- C9 amended, witness: a concrete eligible open alert and seat alert, each
with no matching record, pass through a cycle step untouched. -/
theorem c9_no_match_leaves_alert_unchanged_witness :
    openStep 100 [] true
        (MovieOpenAlert.mk "주토피아" "1351" none none false none true none 0 30)
      = ⟨MovieOpenAlert.mk "주토피아" "1351" none none false none true none 0 30, false, false⟩
    ∧ seatStep 100 [] true
        (SeatCancelAlert.mk "A" "0019" none none (some 1) (some 0) none false none true
          none 0 30)
      = ⟨SeatCancelAlert.mk "A" "0019" none none (some 1) (some 0) none false none true
          none 0 30, false, false⟩ := by
  exact ⟨c9_no_match_leaves_alert_unchanged.1 100 [] true _ (by decide),
    c9_no_match_leaves_alert_unchanged.2 100 [] true _ (by decide)⟩

/-! ## Claim C2: the seat-increase fire decision -/

/-- C2: for a seat alert that passes the gate, has a baseline and a positive
desired count, and matches a record with parsed availability `current`, the
cycle attempts a dispatch iff `current - baseline ≥ desired_count`. -/
theorem c2_seat_fire_iff (a : SeatCancelAlert) (now : Int) (sts : List Showtime) (ok : Bool)
    (b d : Int) (st : Showtime) (c : Nat)
    (hgate : a.can_send_now now = true)
    (hb : a.baseline_available_seats = some b)
    (hd : a.desired_count = some d)
    (hdpos : 0 < d)
    (hm : matchShowtimeForSeatAlert a sts = some st)
    (hc : seatCurrentAvailable st = some c) :
    ((seatStep now sts ok a).dispatched = true ↔ d ≤ (c : Int) - b) := by
  have hdneg : ¬ d ≤ 0 := by omega
  simp only [seatStep, hgate, hb, hd, hm, hc, Bool.not_true, Bool.false_eq_true, if_false,
    if_neg hdneg, ge_iff_le]
  split
  · cases ok <;> simp_all
  · simp_all

/-- C2 witness: baseline 10, desired 2 — the cycle fires at availability 12
and does not fire at availability 11. -/
theorem c2_seat_fire_iff_witness :
    (seatStep 0 [Showtime.mk "A" "X" none "잔여 12석" true] true
      (SeatCancelAlert.mk "A" "0019" none none (some 2) (some 10) none false none true
        none 0 30)).dispatched = true
    ∧ (seatStep 0 [Showtime.mk "A" "X" none "잔여 11석" true] true
      (SeatCancelAlert.mk "A" "0019" none none (some 2) (some 10) none false none true
        none 0 30)).dispatched = false := by
  constructor
  · exact (c2_seat_fire_iff
      (SeatCancelAlert.mk "A" "0019" none none (some 2) (some 10) none false none true
        none 0 30) 0 [Showtime.mk "A" "X" none "잔여 12석" true] true 10 2
      (Showtime.mk "A" "X" none "잔여 12석" true) 12 (by decide) rfl rfl (by decide)
      (by decide) (by decide)).mpr (by decide)
  · have h := c2_seat_fire_iff
      (SeatCancelAlert.mk "A" "0019" none none (some 2) (some 10) none false none true
        none 0 30) 0 [Showtime.mk "A" "X" none "잔여 11석" true] true 10 2
      (Showtime.mk "A" "X" none "잔여 11석" true) 11 (by decide) rfl rfl (by decide)
      (by decide) (by decide)
    cases hdisp : (seatStep 0 [Showtime.mk "A" "X" none "잔여 11석" true] true
      (SeatCancelAlert.mk "A" "0019" none none (some 2) (some 10) none false none true
        none 0 30)).dispatched
    · rfl
    · exact absurd (h.mp hdisp) (by decide)

/-! ## Claim C7: state advances only on a confirmed dispatch -/

/-- The gate is monotone in time: once sendable, still sendable at any later
instant (the alert fields unchanged). -/
theorem can_send_now_mono_open (a : MovieOpenAlert) {n1 n2 : Int} (h12 : n1 ≤ n2)
    (h : a.can_send_now n1 = true) : a.can_send_now n2 = true := by
  revert h
  cases ha : a.active <;> cases hs : a.is_sent <;> cases ht : a.sent_at <;>
    simp [MovieOpenAlert.can_send_now, ha, hs, ht, ge_iff_le]
  all_goals omega

/-- The seat gate is monotone in time. -/
theorem can_send_now_mono_seat (a : SeatCancelAlert) {n1 n2 : Int} (h12 : n1 ≤ n2)
    (h : a.can_send_now n1 = true) : a.can_send_now n2 = true := by
  revert h
  cases ha : a.active <;> cases hs : a.is_sent <;> cases ht : a.sent_at <;>
    simp [SeatCancelAlert.can_send_now, ha, hs, ht, ge_iff_le]
  all_goals omega

/-- C7: whenever a cycle decides to fire for a subscription (of either
kind), the fields `is_sent`, `sent_at` and `send_count` advance iff the mail
dispatch reports success; on a failed dispatch all three are unchanged and
the subscription still passes the gate at any later evaluation instant. -/
theorem c7_update_iff_dispatch_success :
    (∀ (now now2 : Int) (sts : List Showtime) (ok : Bool) (a : MovieOpenAlert),
      (openStep now sts ok a).dispatched = true →
        (ok = true →
          (openStep now sts ok a).alert.is_sent = true ∧
          (openStep now sts ok a).alert.sent_at = some now ∧
          (openStep now sts ok a).alert.send_count = a.send_count + 1) ∧
        (ok = false →
          (openStep now sts ok a).alert.is_sent = a.is_sent ∧
          (openStep now sts ok a).alert.sent_at = a.sent_at ∧
          (openStep now sts ok a).alert.send_count = a.send_count ∧
          (now ≤ now2 → ((openStep now sts ok a).alert.can_send_now now2 = true))))
    ∧ (∀ (now now2 : Int) (sts : List Showtime) (ok : Bool) (a : SeatCancelAlert),
      (seatStep now sts ok a).dispatched = true →
        (ok = true →
          (seatStep now sts ok a).alert.is_sent = true ∧
          (seatStep now sts ok a).alert.sent_at = some now ∧
          (seatStep now sts ok a).alert.send_count = a.send_count + 1) ∧
        (ok = false →
          (seatStep now sts ok a).alert.is_sent = a.is_sent ∧
          (seatStep now sts ok a).alert.sent_at = a.sent_at ∧
          (seatStep now sts ok a).alert.send_count = a.send_count ∧
          (now ≤ now2 → ((seatStep now sts ok a).alert.can_send_now now2 = true)))) := by
  constructor
  · intro now now2 sts ok a
    cases hgate : a.can_send_now now with
    | false => simp [openStep, hgate]
    | true =>
      cases hopen : is_open_now a sts with
      | false => simp [openStep, hgate, hopen]
      | true =>
        cases ok with
        | true => simp [openStep, hgate, hopen]
        | false =>
          intro _
          refine ⟨fun h => absurd h (by simp), fun _ => ?_⟩
          refine ⟨?_, ?_, ?_, fun h12 => ?_⟩
          · simp [openStep, hgate, hopen]
          · simp [openStep, hgate, hopen]
          · simp [openStep, hgate, hopen]
          · have h0 : openStep now sts false a =
                ⟨{ a with last_checked := some now }, true, false⟩ := by
              simp [openStep, hgate, hopen]
            rw [h0]
            exact can_send_now_mono_open _ h12 hgate
  · intro now now2 sts ok a
    cases hgate : a.can_send_now now with
    | false => simp [seatStep, hgate]
    | true =>
      cases hb : a.baseline_available_seats with
      | none => simp [seatStep, hgate, hb]
      | some b =>
        cases hd : a.desired_count with
        | none => simp [seatStep, hgate, hb, hd]
        | some d =>
          by_cases hd0 : d ≤ 0
          · simp [seatStep, hgate, hb, hd, hd0]
          · cases hm : matchShowtimeForSeatAlert a sts with
            | none => simp [seatStep, hgate, hb, hd, hd0, hm]
            | some st =>
              cases hc : seatCurrentAvailable st with
              | none => simp [seatStep, hgate, hb, hd, hd0, hm, hc]
              | some c =>
                by_cases hfire : d ≤ (c : Int) - b
                · cases ok with
                  | true => simp [seatStep, hgate, hb, hd, hd0, hm, hc, hfire]
                  | false =>
                    intro _
                    refine ⟨fun h => absurd h (by simp), fun _ => ?_⟩
                    refine ⟨?_, ?_, ?_, fun h12 => ?_⟩
                    · simp [seatStep, hgate, hb, hd, hd0, hm, hc, hfire]
                    · simp [seatStep, hgate, hb, hd, hd0, hm, hc, hfire]
                    · simp [seatStep, hgate, hb, hd, hd0, hm, hc, hfire]
                    · have h0 : seatStep now sts false a =
                          ⟨{ a with last_available_seats := some (c : Int), last_checked := some now }, true, false⟩ := by
                        simp [seatStep, hgate, hb, hd, hd0, hm, hc, hfire]
                      rw [h0]
                      exact can_send_now_mono_seat _ h12 hgate
                · simp [seatStep, hgate, hb, hd, hd0, hm, hc, hfire]

/-- C7 witness: a concrete firing open alert — on a successful dispatch the
three fields advance; on a failed dispatch they are untouched and the gate
still passes one second later. -/
theorem c7_update_iff_dispatch_success_witness :
    ((openStep 0 [Showtime.mk "Zootopia 2" "X" none "잔여 5석" true] true
        (MovieOpenAlert.mk "zootopia" "1351" none none false none true none 0
          30)).alert.is_sent = true ∧
      (openStep 0 [Showtime.mk "Zootopia 2" "X" none "잔여 5석" true] true
        (MovieOpenAlert.mk "zootopia" "1351" none none false none true none 0
          30)).alert.sent_at = some 0 ∧
      (openStep 0 [Showtime.mk "Zootopia 2" "X" none "잔여 5석" true] true
        (MovieOpenAlert.mk "zootopia" "1351" none none false none true none 0
          30)).alert.send_count = 0 + 1)
    ∧ ((openStep 0 [Showtime.mk "Zootopia 2" "X" none "잔여 5석" true] false
        (MovieOpenAlert.mk "zootopia" "1351" none none false none true none 0
          30)).alert.is_sent = false ∧
      (openStep 0 [Showtime.mk "Zootopia 2" "X" none "잔여 5석" true] false
        (MovieOpenAlert.mk "zootopia" "1351" none none false none true none 0
          30)).alert.sent_at = none ∧
      (openStep 0 [Showtime.mk "Zootopia 2" "X" none "잔여 5석" true] false
        (MovieOpenAlert.mk "zootopia" "1351" none none false none true none 0
          30)).alert.send_count = 0 ∧
      (0 ≤ (1 : Int) →
        (openStep 0 [Showtime.mk "Zootopia 2" "X" none "잔여 5석" true] false
          (MovieOpenAlert.mk "zootopia" "1351" none none false none true none 0
            30)).alert.can_send_now 1 = true)) := by
  constructor
  · exact (c7_update_iff_dispatch_success.1 0 1
      [Showtime.mk "Zootopia 2" "X" none "잔여 5석" true] true
      (MovieOpenAlert.mk "zootopia" "1351" none none false none true none 0 30)
      (by decide)).1 rfl
  · have h := (c7_update_iff_dispatch_success.1 0 1
      [Showtime.mk "Zootopia 2" "X" none "잔여 5석" true] false
      (MovieOpenAlert.mk "zootopia" "1351" none none false none true none 0 30)
      (by decide)).2 rfl
    exact h

/-! ## Claim C1: idempotence across cycles -/

/-- A sent open alert is skipped by a cycle step: unchanged, no dispatch. -/
theorem openStep_of_sent (now : Int) (sts : List Showtime) (ok : Bool)
    (a : MovieOpenAlert) (h : a.is_sent = true) : openStep now sts ok a = ⟨a, false, false⟩ := by
  cases ha : a.active <;>
    simp [openStep, MovieOpenAlert.can_send_now, h, ha]

/-- A sent seat alert is skipped by a cycle step: unchanged, no dispatch. -/
theorem seatStep_of_sent (now : Int) (sts : List Showtime) (ok : Bool)
    (a : SeatCancelAlert) (h : a.is_sent = true) : seatStep now sts ok a = ⟨a, false, false⟩ := by
  cases ha : a.active <;>
    simp [seatStep, SeatCancelAlert.can_send_now, h, ha]

/-- After a successful dispatch the open alert is marked sent. -/
theorem openStep_ok_sent (now : Int) (sts : List Showtime) (ok : Bool) (a : MovieOpenAlert)
    (h : (openStep now sts ok a).dispatchOk = true) :
    (openStep now sts ok a).alert.is_sent = true := by
  revert h
  unfold openStep
  split
  · simp
  · split
    · simp
    · split <;> simp

/-- Without a successful dispatch the open alert's `is_sent` is unchanged. -/
theorem openStep_not_ok_sent (now : Int) (sts : List Showtime) (ok : Bool)
    (a : MovieOpenAlert) (h : (openStep now sts ok a).dispatchOk = false) :
    (openStep now sts ok a).alert.is_sent = a.is_sent := by
  revert h
  unfold openStep
  split
  · simp
  · split
    · simp
    · split <;> simp

/-- After a successful dispatch the seat alert is marked sent. -/
theorem seatStep_ok_sent (now : Int) (sts : List Showtime) (ok : Bool) (a : SeatCancelAlert)
    (h : (seatStep now sts ok a).dispatchOk = true) :
    (seatStep now sts ok a).alert.is_sent = true := by
  revert h
  unfold seatStep
  split
  · simp
  · split
    · simp
    · split
      · simp
      · split
        · simp
        · split
          · simp
          · split
            · simp
            · split
              · split <;> simp
              · simp

/-- Without a successful dispatch the seat alert's `is_sent` is unchanged. -/
theorem seatStep_not_ok_sent (now : Int) (sts : List Showtime) (ok : Bool)
    (a : SeatCancelAlert) (h : (seatStep now sts ok a).dispatchOk = false) :
    (seatStep now sts ok a).alert.is_sent = a.is_sent := by
  revert h
  unfold seatStep
  split
  · simp
  · split
    · simp
    · split
      · simp
      · split
        · simp
        · split
          · simp
          · split
            · simp
            · split
              · split <;> simp
              · simp

/-- A sent open alert passes through any number of cycles untouched, with
zero dispatcher invocations. -/
theorem openTrace_of_sent (cs : List CycleEnv) (a : MovieOpenAlert)
    (h : a.is_sent = true) : openTrace cs a = (a, 0, 0) := by
  induction cs with
  | nil => rfl
  | cons e rest ih => simp [openTrace, openStep_of_sent e.now e.showtimes e.mailOk a h, ih]

/-- A sent seat alert passes through any number of cycles untouched, with
zero dispatcher invocations. -/
theorem seatTrace_of_sent (cs : List CycleEnv) (a : SeatCancelAlert)
    (h : a.is_sent = true) : seatTrace cs a = (a, 0, 0) := by
  induction cs with
  | nil => rfl
  | cons e rest ih => simp [seatTrace, seatStep_of_sent e.now e.showtimes e.mailOk a h, ih]

/-- Across any cycles, an open alert sees at most one successful dispatch
(zero if it already starts sent). -/
theorem openTrace_succ_bound (cs : List CycleEnv) :
    ∀ a : MovieOpenAlert, (openTrace cs a).2.2 ≤ if a.is_sent then 0 else 1 := by
  induction cs with
  | nil => intro a; simp [openTrace]
  | cons e rest ih =>
    intro a
    cases h : a.is_sent with
    | true =>
      rw [openTrace_of_sent (e :: rest) a h]
      simp [h]
    | false =>
      show (let r := openStep e.now e.showtimes e.mailOk a
        let t := openTrace rest r.alert
        (t.1, (if r.dispatched then 1 else 0) + t.2.1,
          (if r.dispatchOk then 1 else 0) + t.2.2)).2.2 ≤ _
      cases hok : (openStep e.now e.showtimes e.mailOk a).dispatchOk with
      | false =>
        have hs := openStep_not_ok_sent e.now e.showtimes e.mailOk a hok
        have := ih (openStep e.now e.showtimes e.mailOk a).alert
        rw [hs, h] at this
        simp only [hok, h]
        simpa using this
      | true =>
        have hs := openStep_ok_sent e.now e.showtimes e.mailOk a hok
        have := ih (openStep e.now e.showtimes e.mailOk a).alert
        rw [hs] at this
        simp only [hok, h]
        simpa using this

/-- Across any cycles, a seat alert sees at most one successful dispatch
(zero if it already starts sent). -/
theorem seatTrace_succ_bound (cs : List CycleEnv) :
    ∀ a : SeatCancelAlert, (seatTrace cs a).2.2 ≤ if a.is_sent then 0 else 1 := by
  induction cs with
  | nil => intro a; simp [seatTrace]
  | cons e rest ih =>
    intro a
    cases h : a.is_sent with
    | true =>
      rw [seatTrace_of_sent (e :: rest) a h]
      simp [h]
    | false =>
      show (let r := seatStep e.now e.showtimes e.mailOk a
        let t := seatTrace rest r.alert
        (t.1, (if r.dispatched then 1 else 0) + t.2.1,
          (if r.dispatchOk then 1 else 0) + t.2.2)).2.2 ≤ _
      cases hok : (seatStep e.now e.showtimes e.mailOk a).dispatchOk with
      | false =>
        have hs := seatStep_not_ok_sent e.now e.showtimes e.mailOk a hok
        have := ih (seatStep e.now e.showtimes e.mailOk a).alert
        rw [hs, h] at this
        simp only [hok, h]
        simpa using this
      | true =>
        have hs := seatStep_ok_sent e.now e.showtimes e.mailOk a hok
        have := ih (seatStep e.now e.showtimes e.mailOk a).alert
        rw [hs] at this
        simp only [hok, h]
        simpa using this

/-- C1 counterexample: a firing seat alert whose mail dispatch fails is
retried — over two cycles the dispatcher is invoked twice for the same
subscription, so "the send function is called at most once" is false when a
send fails (only *successful* sends are at most one). -/
theorem c1_counterexample :
    (seatTrace
      [CycleEnv.mk 0 [Showtime.mk "A" "X" none "잔여 5석" true] false,
       CycleEnv.mk 0 [Showtime.mk "A" "X" none "잔여 5석" true] false]
      (SeatCancelAlert.mk "A" "0019" none none (some 1) (some 0) none false none true
        none 0 30)).2.1 = 2 := by
  decide

/-- C1 amended: for both alert kinds, once `is_sent` is true no later cycle
invokes the dispatcher for the subscription (its state never changes again
and its dispatch count over any cycle sequence is zero), and across any
number of cycles at most one *successful* dispatch ever happens; a failed
dispatch, however, may be retried. -/
theorem c1_sent_is_terminal_and_at_most_one_success :
    (∀ (a : MovieOpenAlert) (cs : List CycleEnv), a.is_sent = true →
      openTrace cs a = (a, 0, 0))
    ∧ (∀ (a : MovieOpenAlert) (cs : List CycleEnv), (openTrace cs a).2.2 ≤ 1)
    ∧ (∀ (a : SeatCancelAlert) (cs : List CycleEnv), a.is_sent = true →
      seatTrace cs a = (a, 0, 0))
    ∧ (∀ (a : SeatCancelAlert) (cs : List CycleEnv), (seatTrace cs a).2.2 ≤ 1) := by
  refine ⟨fun a cs h => openTrace_of_sent cs a h, fun a cs => ?_,
    fun a cs h => seatTrace_of_sent cs a h, fun a cs => ?_⟩
  · have := openTrace_succ_bound cs a
    cases h : a.is_sent <;> simp [h] at this <;> omega
  · have := seatTrace_succ_bound cs a
    cases h : a.is_sent <;> simp [h] at this <;> omega

/-- C1 amended, witness: a concrete sent alert of each kind is untouched by
a cycle, and a concrete unsent alert sees at most one successful dispatch. -/
theorem c1_sent_is_terminal_and_at_most_one_success_witness :
    openTrace [CycleEnv.mk 0 [] true]
        (MovieOpenAlert.mk "주토피아" "1351" none none true none true (some 0) 1 30)
      = (MovieOpenAlert.mk "주토피아" "1351" none none true none true (some 0) 1 30, 0, 0)
    ∧ (seatTrace
        [CycleEnv.mk 0 [Showtime.mk "A" "X" none "잔여 5석" true] true,
         CycleEnv.mk 0 [Showtime.mk "A" "X" none "잔여 5석" true] true]
        (SeatCancelAlert.mk "A" "0019" none none (some 1) (some 0) none false none true
          none 0 30)).2.2 ≤ 1 := by
  exact ⟨c1_sent_is_terminal_and_at_most_one_success.1 _ _ rfl,
    c1_sent_is_terminal_and_at_most_one_success.2.2.2 _ _⟩

/-! ## Claim C8: one fetch per distinct (venue, date) group -/

/-- Membership in the accumulated key list: a key appears after folding iff
it was already accumulated or occurs in the input. -/
theorem mem_foldl_insertKey (l : List (String × String)) :
    ∀ (acc : List (String × String)) (x : String × String),
      (x ∈ l.foldl insertKey acc ↔ x ∈ acc ∨ x ∈ l) := by
  induction l with
  | nil => simp
  | cons k t ih =>
    intro acc x
    rw [List.foldl_cons, ih]
    unfold insertKey
    split
    · rename_i hk
      simp only [List.mem_cons]
      constructor
      · tauto
      · rintro (h | h | h)
        · tauto
        · subst h; tauto
        · tauto
    · simp only [List.mem_append, List.mem_singleton, List.mem_cons]
      tauto

/-- Folding `insertKey` never introduces duplicates. -/
theorem nodup_foldl_insertKey (l : List (String × String)) :
    ∀ acc : List (String × String), acc.Nodup → (l.foldl insertKey acc).Nodup := by
  induction l with
  | nil => intro acc h; simpa using h
  | cons k t ih =>
    intro acc h
    rw [List.foldl_cons]
    apply ih
    unfold insertKey
    split
    · exact h
    · rename_i hk
      simp [List.nodup_append, h, hk]

/-- The deduplicated group-key list has no duplicates. -/
theorem groupKeys_nodup (l : List (String × String)) : (groupKeys l).Nodup :=
  nodup_foldl_insertKey l [] List.nodup_nil

/-- How many times a given `(branch, date)` pair occurs in a key list, i.e.
how many `get_showtimes` calls target it. -/
def countKey (p : String × String) (l : List (String × String)) : Nat :=
  (l.filter fun q => q = p).length

/-- A pair absent from a key list is counted zero times. -/
theorem countKey_eq_zero {p : String × String} {l : List (String × String)}
    (h : p ∉ l) : countKey p l = 0 := by
  induction l with
  | nil => rfl
  | cons b t ih =>
    simp only [List.mem_cons] at h
    push_neg at h
    have hb : ¬ (b = p) := fun hc => h.1 hc.symm
    simp only [countKey, List.filter_cons, decide_eq_true_eq]
    rw [if_neg hb]
    exact ih h.2

/-- A pair occurring in a duplicate-free key list is counted exactly once. -/
theorem countKey_eq_one {p : String × String} {l : List (String × String)}
    (hn : l.Nodup) (h : p ∈ l) : countKey p l = 1 := by
  induction l with
  | nil => simp at h
  | cons b t ih =>
    rw [List.nodup_cons] at hn
    simp only [countKey, List.filter_cons, decide_eq_true_eq]
    rcases List.mem_cons.mp h with rfl | hmem
    · rw [if_pos rfl]
      have h0 : countKey p t = 0 := countKey_eq_zero hn.1
      simp only [countKey] at h0
      simp [h0]
    · have hb : ¬ (b = p) := fun hc => hn.1 (hc ▸ hmem)
      rw [if_neg hb]
      exact ih hn.2 hmem

/-- A key is fetched iff some alert contributed it. -/
theorem mem_groupKeys (l : List (String × String)) (x : String × String) :
    x ∈ groupKeys l ↔ x ∈ l := by
  rw [groupKeys, mem_foldl_insertKey]
  simp

/-- C8: within one cycle, for both check drivers, `get_showtimes` is called
exactly once for every `(branch, date)` pair contributed by at least one
loaded alert — where the date is the alert's stored target date when present
(for seat alerts, the date digits of `show_datetime`), else the run's
current date — and never for a pair no alert contributes. -/
theorem c8_fetch_once_per_group (today : String) :
    (∀ (alerts : List MovieOpenAlert) (p : String × String),
      ((∃ a ∈ alerts, openAlertKey today a = some p) →
        countKey p (openFetchCalls today alerts) = 1)
      ∧ ((¬ ∃ a ∈ alerts, openAlertKey today a = some p) →
        countKey p (openFetchCalls today alerts) = 0))
    ∧ (∀ (alerts : List SeatCancelAlert) (p : String × String),
      ((∃ a ∈ alerts, seatAlertKey today a = some p) →
        countKey p (seatFetchCalls today alerts) = 1)
      ∧ ((¬ ∃ a ∈ alerts, seatAlertKey today a = some p) →
        countKey p (seatFetchCalls today alerts) = 0)) := by
  constructor
  · intro alerts p
    constructor
    · intro h
      apply countKey_eq_one (groupKeys_nodup _)
      rw [mem_groupKeys, List.mem_filterMap]
      exact h
    · intro h
      apply countKey_eq_zero
      unfold openFetchCalls
      rw [mem_groupKeys, List.mem_filterMap]
      exact h
  · intro alerts p
    constructor
    · intro h
      apply countKey_eq_one (groupKeys_nodup _)
      rw [mem_groupKeys, List.mem_filterMap]
      exact h
    · intro h
      apply countKey_eq_zero
      unfold seatFetchCalls
      rw [mem_groupKeys, List.mem_filterMap]
      exact h

/-- C8 witness: two open alerts sharing branch `"1351"` and the run date
cause exactly one fetch of that pair, and a pair no alert contributes is
never fetched. -/
theorem c8_fetch_once_per_group_witness :
    countKey ("1351", "20251208") (openFetchCalls "20251208"
      [MovieOpenAlert.mk "주토피아" "1351" none none false none true none 0 30,
       MovieOpenAlert.mk "아바타" "1351" none none false none true none 0 30]) = 1
    ∧ countKey ("0019", "20251208") (openFetchCalls "20251208"
      [MovieOpenAlert.mk "주토피아" "1351" none none false none true none 0 30,
       MovieOpenAlert.mk "아바타" "1351" none none false none true none 0 30]) = 0 := by
  refine ⟨((c8_fetch_once_per_group "20251208").1 _ _).1 ?_,
    ((c8_fetch_once_per_group "20251208").1 _ _).2 ?_⟩
  · exact ⟨MovieOpenAlert.mk "주토피아" "1351" none none false none true none 0 30,
      by simp, by decide⟩
  · intro h
    rcases h with ⟨a, ha, hk⟩
    simp only [List.mem_cons, List.not_mem_nil, or_false] at ha
    rcases ha with ha | ha <;> (subst ha; revert hk; decide)

example : pyIn "zootopia" "Zootopia 2" = false := by decide
example : pyIn (normalizeText (some "zootopia")) (normalizeText (some "Zootopia 2")) = true := by
  decide
example : seatCurrentAvailable ⟨"A", "S", none, "매진 3", true⟩ = some 3 := by decide
example : seatCurrentAvailable ⟨"A", "S", none, "매진", true⟩ = some 0 := by decide
example : getTimeHmFromShowDatetime (some "2025-12-24 19:30") = some "1930" := by decide
